import Mathlib

/-!
Verification of the pixelforge-mcp input-validation and request layer.

The Python source (src/pixelforge_mcp) is embedded shallowly: each pydantic
field validator, the config loader's api-key resolution, the ImagenAPIClient
methods and the MCP tool handlers become Lean functions.  File-system facts
(`Path.exists`, `Path.is_file`, `os.getcwd`) and the external
GeminiImageGenerator library are oracles passed in as explicit arguments.
-/

deriving instance DecidableEq for Except

/-! ## Python string primitives -/

/-- Characters Python's `str.strip()` removes (the Python str whitespace set). -/
def isPySpace (c : Char) : Bool :=
  c = ' ' || c = '\t' || c = '\n' || c = '\r' || c = '\x0b' || c = '\x0c' ||
  ('\x1c' ≤ c && c ≤ '\x1f') || c = '\x85' || c = '\xa0' || c = '\u1680' ||
  ('\u2000' ≤ c && c ≤ '\u200a') || c = '\u2028' || c = '\u2029' ||
  c = '\u202f' || c = '\u205f' || c = '\u3000'

/-- Python `s.strip()`: drop leading and trailing whitespace. -/
def pyStrip (s : String) : String :=
  String.mk (((s.data.dropWhile isPySpace).reverse.dropWhile isPySpace).reverse)

/-- Python `pat in s`: substring containment. -/
def pyInStr (pat s : String) : Bool := decide (pat.data <:+: s.data)

/-- Python `s.lower()` (character-wise ASCII case mapping; every string it is
applied to below is compared against ASCII-only literals). -/
def pyLower (s : String) : String := String.mk (s.data.map Char.toLower)

/-- Python `s.endswith(post)`. -/
def pyEndsWith (s post : String) : Bool :=
  List.isPrefixOf post.data.reverse s.data.reverse

/-- Python `s.split(sep)` for a one-character separator (splitting "" gives
one empty part). -/
def splitOnChar (sep : Char) : List Char → List (List Char)
  | [] => [[]]
  | c :: cs =>
    if c = sep then [] :: splitOnChar sep cs
    else match splitOnChar sep cs with
      | [] => [[c]]
      | h :: t => (c :: h) :: t

/-! ## validation.py -/

/-- Supported aspect ratios (validation.py lines 11-22). -/
def ASPECT_RATIOS : List String :=
  ["1:1", "2:3", "3:2", "3:4", "4:3", "4:5", "5:4", "9:16", "16:9", "21:9"]

/-- GenerateImageInput.validate_prompt and EditImageInput.validate_prompt
(validation.py lines 49-58 and 106-115; the two bodies are identical). -/
def validate_prompt (v : String) : Except String String :=
  let v := pyStrip v
  if v = "" then .error "Prompt cannot be empty"
  else if v.length > 2000 then .error "Prompt too long (max 2000 characters)"
  else .ok v

/-- AnalyzeImageInput.validate_prompt (validation.py lines 140-151): the same
rule, with `None` passed through. -/
def validate_opt_prompt (v : Option String) : Except String (Option String) :=
  match v with
  | none => .ok none
  | some v =>
    let v := pyStrip v
    if v = "" then .error "Prompt cannot be empty"
    else if v.length > 2000 then .error "Prompt too long (max 2000 characters)"
    else .ok (some v)

/-- GenerateImageInput.validate_aspect_ratio (validation.py lines 60-68). -/
def validate_aspect_ratio (v : String) : Except String String :=
  if v ∉ ASPECT_RATIOS then
    .error ("Invalid aspect ratio. Must be one of: " ++
      String.intercalate ", " ASPECT_RATIOS)
  else .ok v

/-- The character class of the regex `[a-zA-Z0-9_\-\.]` in validate_filename. -/
def filename_char_ok (c : Char) : Bool :=
  ('a' ≤ c && c ≤ 'z') || ('A' ≤ c && c ≤ 'Z') || ('0' ≤ c && c ≤ '9') ||
  c = '_' || c = '-' || c = '.'

/-- Python `re.match(r"^[a-zA-Z0-9_\-\.]+$", v) is not None`.  Without
re.MULTILINE, `$` matches at the end of the string and also just before a
newline that is the string's last character, so the pattern tolerates one
trailing newline after the character-class run. -/
def re_match_filename (v : String) : Bool :=
  let core := if v.data.getLast? = some '\n' then v.data.dropLast else v.data
  !core.isEmpty && core.all filename_char_ok

/-- Python `v.lower().endswith((".png", ".jpg", ".jpeg", ".webp"))`
(String.toLower matches Python's lower() on the ASCII strings compared here). -/
def has_image_ext (v : String) : Bool :=
  let l := pyLower v
  pyEndsWith l ".png" || pyEndsWith l ".jpg" || pyEndsWith l ".jpeg" ||
  pyEndsWith l ".webp"

/-- GenerateImageInput.validate_filename (validation.py lines 70-91), also used
by EditImageInput via its output_filename field. -/
def validate_filename : Option String → Except String (Option String)
  | none => .ok none
  | some v =>
    if pyInStr ".." v || pyInStr "/" v || pyInStr "\\" v then
      .error "Filename cannot contain path separators"
    else if !re_match_filename v then
      .error "Filename can only contain letters, numbers, underscore, hyphen, and dot"
    else if !has_image_ext v then .ok (some (v ++ ".png"))
    else .ok (some v)

/-! ## pathlib model -/

/-- Components of a POSIX path as pathlib parses them: empty components and
"." components are dropped. -/
def path_components (p : String) : List String :=
  ((splitOnChar '/' p.data).map String.mk).filter (fun s => s != "" && s != ".")

/-- pathlib `Path(p).name`: the final component ("" when there is none). -/
def path_name (p : String) : String := (path_components p).getLast?.getD ""

/-- Python `s.rfind(c)`: index of the last occurrence, -1 when absent. -/
def py_rfind (s : String) (c : Char) : Int :=
  match (s.data.reverse).findIdx? (fun x => x = c) with
  | none => -1
  | some j => (s.length : Int) - 1 - (j : Int)

/-- pathlib `Path(p).suffix`: the extension of the final component — the part
of the name from its last dot, unless that dot is the name's first or last
character. -/
def path_suffix (p : String) : String :=
  let name := path_name p
  let i := py_rfind name '.'
  if 0 < i ∧ i < (name.length : Int) - 1 then name.drop i.toNat else ""

/-- A file-system oracle: which path strings exist, which are regular files,
file sizes, and the process working directory (`os.getcwd()`). -/
structure FS where
  pathExists : String → Bool
  isFile : String → Bool
  size : String → Nat
  cwd : String

/-- A POSIX path is absolute iff it begins with '/'. -/
def is_abs_path (p : String) : Bool := p.data.head? = some '/'

/-- str(Path(p)): pathlib's canonical rendering of the parsed path. -/
def path_str (p : String) : String :=
  if is_abs_path p then "/" ++ String.intercalate "/" (path_components p)
  else if path_components p = [] then "."
  else String.intercalate "/" (path_components p)

/-- str(Path(p).absolute()): prefix the working directory when the path is
relative; `..` components are not resolved. -/
def path_absolute (fs : FS) (p : String) : String :=
  if is_abs_path p then path_str p else path_str (fs.cwd ++ "/" ++ p)

/-- The extension whitelist of the two image-path validators. -/
def IMAGE_EXTS : List String := [".png", ".jpg", ".jpeg", ".webp"]

/-- EditImageInput.validate_input_path (validation.py lines 117-128). -/
def validate_input_path (fs : FS) (v : String) : Except String String :=
  if !fs.pathExists v then .error ("Input image not found: " ++ v)
  else if !fs.isFile v then .error ("Input path is not a file: " ++ v)
  else if pyLower (path_suffix v) ∉ IMAGE_EXTS then
    .error ("Invalid image format: " ++ path_suffix v)
  else .ok (path_absolute fs v)

/-- AnalyzeImageInput.validate_image_path (validation.py lines 153-164). -/
def validate_image_path (fs : FS) (v : String) : Except String String :=
  if !fs.pathExists v then .error ("Image not found: " ++ v)
  else if !fs.isFile v then .error ("Path is not a file: " ++ v)
  else if pyLower (path_suffix v) ∉ IMAGE_EXTS then
    .error ("Invalid image format: " ++ path_suffix v)
  else .ok (path_absolute fs v)

/-! ## The three validated request records (pydantic models) -/

/-- GenerateImageInput after validation (validation.py lines 25-47). -/
structure GenerateImageInput where
  prompt : String
  output_filename : Option String
  aspect_ratio : String
  temperature : ℚ
  model : Option String
  safety_setting : String
deriving DecidableEq

/-- EditImageInput after validation (validation.py lines 94-128). -/
structure EditImageInput where
  prompt : String
  input_image_path : String
  output_filename : Option String
  temperature : ℚ
deriving DecidableEq

/-- AnalyzeImageInput after validation (validation.py lines 131-164). -/
structure AnalyzeImageInput where
  image_path : String
  prompt : Option String
deriving DecidableEq

/-- The error list a single field contributes to a pydantic ValidationError. -/
def errsOf {α : Type} : Except String α → List String
  | .error e => [e]
  | .ok _ => []

/-- pydantic's built-in `ge=0.0, le=1.0` constraint on a temperature field,
with pydantic's messages. -/
def temp_errors (t : ℚ) : List String :=
  if t < 0 then ["Input should be greater than or equal to 0"]
  else if 1 < t then ["Input should be less than or equal to 1"]
  else []

/-- Constructing GenerateImageInput: pydantic runs every field's checks and
collects the failures in field order. -/
def validate_generate_input (prompt : String) (output_filename : Option String)
    (aspect_ratio : String) (temperature : ℚ) (model : Option String)
    (safety_setting : String) : Except (List String) GenerateImageInput :=
  match validate_prompt prompt, validate_filename output_filename,
        validate_aspect_ratio aspect_ratio, temp_errors temperature with
  | .ok p, .ok f, .ok a, [] => .ok ⟨p, f, a, temperature, model, safety_setting⟩
  | r1, r2, r3, te => .error (errsOf r1 ++ errsOf r2 ++ errsOf r3 ++ te)

/-- Constructing EditImageInput: field checks in field order. -/
def validate_edit_input (fs : FS) (prompt input_image_path : String)
    (output_filename : Option String) (temperature : ℚ) :
    Except (List String) EditImageInput :=
  match validate_prompt prompt, validate_input_path fs input_image_path,
        validate_filename output_filename, temp_errors temperature with
  | .ok p, .ok ip, .ok f, [] => .ok ⟨p, ip, f, temperature⟩
  | r1, r2, r3, te => .error (errsOf r1 ++ errsOf r2 ++ errsOf r3 ++ te)

/-- Constructing AnalyzeImageInput: field checks in field order. -/
def validate_analyze_input (fs : FS) (image_path : String)
    (prompt : Option String) : Except (List String) AnalyzeImageInput :=
  match validate_image_path fs image_path, validate_opt_prompt prompt with
  | .ok ip, .ok pr => .ok ⟨ip, pr⟩
  | r1, r2 => .error (errsOf r1 ++ errsOf r2)

/-! ## api_client.py: the in-process backend adapter -/

/-- The default analysis prompt (api_client.py lines 13-15). -/
def DEFAULT_ANALYSIS_PROMPT : String :=
  "Describe this image in detail, including objects, colors, composition, and mood."

/-- State of a GeminiImageGenerator instance (the external library object);
only the constructor arguments the client sets are modelled. -/
structure GeneratorState where
  model_name : String
  api_key : Option String
  log_images : Bool
deriving DecidableEq

/-- Mutable state of an ImagenAPIClient (api_client.py lines 30-49):
its attributes and the lazily created shared generator. -/
structure ClientState where
  model_name : String
  api_key : Option String
  log_images : Bool
  generator : Option GeneratorState
deriving DecidableEq

/-- ImagenAPIClient._get_generator (api_client.py lines 51-59): return the
shared generator, creating it from the client's attributes on first use. -/
def get_generator (st : ClientState) : GeneratorState × ClientState :=
  match st.generator with
  | some g => (g, st)
  | none =>
    let g : GeneratorState := ⟨st.model_name, st.api_key, st.log_images⟩
    (g, { st with generator := some g })

/-- One invocation of the external `GeminiImageGenerator.generate` call: the
arguments that cross into the library, together with the model name the
generator instance holds at call time. -/
structure SdkInvocation where
  model_name : String
  prompt : String
  input_images : List String
  output_images : List String
  aspect_ratio : Option String
  temperature : Option ℚ
  output_text : Bool
deriving DecidableEq

/-- What the external library reports back: the `images` and `text` attributes
of its result.  `none` models a `None` attribute; images are opaque handles. -/
structure SdkResult where
  images : Option (List Nat)
  text : Option String
deriving DecidableEq

/-- The external library as an oracle; `.error e` models a raised exception
whose `str` is `e`. -/
abbrev Sdk := SdkInvocation → Except String SdkResult

/-- Python truthiness of an optional list attribute (`if result.images:`). -/
def truthy_list {α : Type} : Option (List α) → Bool
  | none => false
  | some l => !l.isEmpty

/-- Python truthiness of an optional string (`if model:`, `if result.text:`). -/
def truthy_opt : Option String → Bool
  | none => false
  | some s => s != ""

/-- Python `a or b` for an optional string `a` and a string `b`. -/
def py_or_str (a : Option String) (b : String) : String :=
  match a with
  | some s => if s != "" then s else b
  | none => b

/-- The structured `data` payload of a GenerationResult: the dict keys the
client writes, each optional (a `some none` value is a key that is present
and maps to Python None). -/
structure ResultData where
  model : Option String := none
  aspect_ratio : Option (Option String) := none
  temperature : Option (Option ℚ) := none
  analysis : Option String := none
  image_path : Option String := none
deriving DecidableEq

/-- GenerationResult (api_client.py lines 18-27). -/
structure GenerationResult where
  success : Bool
  output : String
  error : Option String := none
  images : Option (List Nat) := none
  image_paths : Option (List String) := none
  data : Option ResultData := none
deriving DecidableEq

/-- ImagenAPIClient.generate, up to the external call (api_client.py lines
83-95): fetch the shared generator, overwrite its model_name when a per-call
model is given, and build the arguments of `generator.generate`.  Returns the
invocation and the client state after it. -/
def generate_invocation (st : ClientState) (prompt output_path : String)
    (aspect_ratio : Option String) (temperature : Option ℚ)
    (model : Option String) : SdkInvocation × ClientState :=
  let p := get_generator st
  let g := match model with
    | some m => if m != "" then { p.1 with model_name := m } else p.1
    | none => p.1
  let st := { p.2 with generator := some g }
  (⟨g.model_name, prompt, [], [output_path], aspect_ratio, temperature, false⟩, st)

/-- ImagenAPIClient.generate (api_client.py lines 61-123).  Returns the
result, the client state after the call, and the invocations passed to the
external library. -/
def client_generate (sdk : Sdk) (st : ClientState) (prompt output_path : String)
    (aspect_ratio : Option String) (temperature : Option ℚ)
    (model safety_setting : Option String) :
    GenerationResult × ClientState × List SdkInvocation :=
  let p := generate_invocation st prompt output_path aspect_ratio temperature model
  match sdk p.1 with
  | .error e => ({ success := false, output := "", error := some e }, p.2, [p.1])
  | .ok result =>
    if truthy_list result.images then
      ({ success := true,
         output := "Image generated successfully at " ++ output_path,
         images := result.images,
         image_paths := some [output_path],
         data := some { model := some (py_or_str model st.model_name),
                        aspect_ratio := some aspect_ratio,
                        temperature := some temperature } }, p.2, [p.1])
    else
      ({ success := false, output := "", error := some "No images generated" },
       p.2, [p.1])

/-- ImagenAPIClient.edit, up to the external call (api_client.py lines
143-151): the arguments of `generator.generate` for an edit. -/
def edit_invocation (st : ClientState) (prompt input_path output_path : String)
    (temperature : Option ℚ) : SdkInvocation × ClientState :=
  let p := get_generator st
  let st := { p.2 with generator := some p.1 }
  (⟨p.1.model_name, prompt, [input_path], [output_path], none, temperature, false⟩, st)

/-- ImagenAPIClient.edit (api_client.py lines 125-177). -/
def client_edit (sdk : Sdk) (st : ClientState) (prompt input_path output_path : String)
    (temperature : Option ℚ) :
    GenerationResult × ClientState × List SdkInvocation :=
  let p := edit_invocation st prompt input_path output_path temperature
  match sdk p.1 with
  | .error e => ({ success := false, output := "", error := some e }, p.2, [p.1])
  | .ok result =>
    if truthy_list result.images then
      ({ success := true,
         output := "Image edited successfully at " ++ output_path,
         images := result.images,
         image_paths := some [output_path],
         data := some { model := some st.model_name,
                        temperature := some temperature } }, p.2, [p.1])
    else
      ({ success := false, output := "", error := some "No images generated" },
       p.2, [p.1])

/-- ImagenAPIClient.analyze, up to the external call (api_client.py lines
192-198): `prompt or DEFAULT_ANALYSIS_PROMPT` is what reaches the library. -/
def analyze_invocation (st : ClientState) (image_path : String)
    (prompt : Option String) : SdkInvocation × ClientState :=
  let p := get_generator st
  let st := { p.2 with generator := some p.1 }
  (⟨p.1.model_name, py_or_str prompt DEFAULT_ANALYSIS_PROMPT, [image_path], [],
    none, none, true⟩, st)

/-- ImagenAPIClient.analyze (api_client.py lines 179-222). -/
def client_analyze (sdk : Sdk) (st : ClientState) (image_path : String)
    (prompt : Option String) :
    GenerationResult × ClientState × List SdkInvocation :=
  let p := analyze_invocation st image_path prompt
  match sdk p.1 with
  | .error e => ({ success := false, output := "", error := some e }, p.2, [p.1])
  | .ok result =>
    if truthy_opt result.text then
      ({ success := true,
         output := (result.text).getD "",
         data := some { analysis := result.text,
                        image_path := some image_path } }, p.2, [p.1])
    else
      ({ success := false, output := "", error := some "No analysis generated" },
       p.2, [p.1])

/-! ## config.py: api-key resolution -/

/-- The environment as an oracle (`os.getenv`). -/
abbrev Env := String → Option String

/-- Python `a or b` over optional strings (`None` and `""` are both falsy). -/
def py_or_opt (a b : Option String) : Option String :=
  match a with
  | some s => if s != "" then some s else b
  | none => b

/-- The environment lookup chain of Config.load (config.py lines 81-85). -/
def env_api_key (env : Env) : Option String :=
  py_or_opt (env "GOOGLE_API_KEY")
    (py_or_opt (env "GOOGLE_GENERATIVE_AI_API_KEY") (env "GEMINI_API_KEY"))

/-- Config.load restricted to the imagen.api_key field (config.py lines
66-89): `file_key` is the api_key the config file supplies, if any; a truthy
environment value overwrites it in config_data before Config is built. -/
def loaded_api_key (file_key : Option String) (env : Env) : Option String :=
  match env_api_key env with
  | some k => if k != "" then some k else file_key
  | none => file_key

/-- First non-empty value among a list of optional lookups: the spec's
reading of the precedence rule, compared against `loaded_api_key`. -/
def first_non_empty : List (Option String) → Option String
  | [] => none
  | some s :: rest => if s != "" then some s else first_non_empty rest
  | none :: rest => first_non_empty rest

/-! ## server.py: tool handlers -/

/-- The storage-configuration slice the handlers read. -/
structure StorageCfg where
  output_dir : String

/-- server.generate_output_path (server.py lines 47-67).  `timestamp` stands
for the `datetime.now().strftime(...)` value, supplied by the caller of the
model; `pfx` is the source's prefix argument. -/
def generate_output_path (cfg : StorageCfg) (filename : Option String)
    (pfx timestamp : String) : String :=
  match filename with
  | some f =>
    if f != "" then cfg.output_dir ++ "/" ++ f
    else cfg.output_dir ++ "/" ++ pfx ++ "_" ++ timestamp ++ ".png"
  | none => cfg.output_dir ++ "/" ++ pfx ++ "_" ++ timestamp ++ ".png"

/-- The dictionary a tool handler returns; keys that may be absent are
`Option`s. -/
structure ToolResponse where
  success : Bool
  message : Option String := none
  image_path : Option String := none
  image_size_bytes : Option Nat := none
  details : Option ResultData := none
  analysis : Option String := none
deriving DecidableEq

/-- server.format_api_result (server.py lines 70-92). -/
def format_api_result (fs : FS) (result : GenerationResult)
    (image_path : Option String) : ToolResponse :=
  let response : ToolResponse :=
    { success := result.success,
      message := if result.success then some result.output else result.error }
  let response := match image_path with
    | some ip =>
      if result.success && fs.pathExists ip then
        { response with image_path := some (path_absolute fs ip),
                        image_size_bytes := some (fs.size ip) }
      else response
    | none => response
  match result.data with
  | some d => { response with details := some d }
  | none => response

/-- Rendering of a pydantic ValidationError's per-field messages (the
framework's surrounding framing text is not modelled; a single-field failure
renders as that field's message). -/
def render_errors (errs : List String) : String := String.intercalate "; " errs

/-- server.generate_image (server.py lines 95-194).  Returns the response,
the client state after the call, and the invocations passed to the external
library — empty when validation fails, since the handler returns before the
client is touched. -/
def generate_image (fs : FS) (cfg : StorageCfg) (sdk : Sdk) (st : ClientState)
    (timestamp prompt : String) (output_filename : Option String)
    (aspect_ratio : String) (temperature : ℚ) (model : Option String)
    (safety_setting : String) :
    ToolResponse × ClientState × List SdkInvocation :=
  match validate_generate_input prompt output_filename aspect_ratio temperature
      model safety_setting with
  | .error errs =>
    ({ success := false, message := some ("Invalid input: " ++ render_errors errs) },
     st, [])
  | .ok inputs =>
    let output_path := generate_output_path cfg inputs.output_filename
      "generated" timestamp
    let r := client_generate sdk st inputs.prompt output_path
      (some inputs.aspect_ratio) (some inputs.temperature) inputs.model
      (some inputs.safety_setting)
    (format_api_result fs r.1 (if r.1.success then some output_path else none),
     r.2.1, r.2.2)

/-- server.edit_image (server.py lines 197-268). -/
def edit_image (fs : FS) (cfg : StorageCfg) (sdk : Sdk) (st : ClientState)
    (timestamp prompt input_image_path : String)
    (output_filename : Option String) (temperature : ℚ) :
    ToolResponse × ClientState × List SdkInvocation :=
  match validate_edit_input fs prompt input_image_path output_filename
      temperature with
  | .error errs =>
    ({ success := false, message := some ("Invalid input: " ++ render_errors errs) },
     st, [])
  | .ok inputs =>
    let output_path := generate_output_path cfg inputs.output_filename
      "edited" timestamp
    let r := client_edit sdk st inputs.prompt inputs.input_image_path
      output_path (some inputs.temperature)
    (format_api_result fs r.1 (if r.1.success then some output_path else none),
     r.2.1, r.2.2)

/-- server.analyze_image (server.py lines 271-320).  The tool's signature has
only `image_path`: AnalyzeImageInput is constructed without a prompt and
`client.analyze` is called without one, so no caller-supplied analysis prompt
can reach the backend through this tool. -/
def analyze_image (fs : FS) (sdk : Sdk) (st : ClientState) (image_path : String) :
    ToolResponse × ClientState × List SdkInvocation :=
  match validate_analyze_input fs image_path none with
  | .error errs =>
    ({ success := false, message := some ("Invalid input: " ++ render_errors errs) },
     st, [])
  | .ok inputs =>
    let r := client_analyze sdk st inputs.image_path none
    let response : ToolResponse :=
      if r.1.success && r.1.data.isSome then
        { success := true,
          analysis := some (((r.1.data.map
            (fun d => (d.analysis).getD r.1.output))).getD r.1.output),
          image_path := some inputs.image_path }
      else
        { success := false,
          message := some (py_or_str r.1.error "Analysis failed") }
    (response, r.2.1, r.2.2)

/-! ## Concrete fixtures for witnesses -/

/-- A file system in which /tmp/x.png is a regular png file. -/
def fsTmpX : FS :=
  { pathExists := fun p => p == "/tmp/x.png",
    isFile := fun p => p == "/tmp/x.png",
    size := fun _ => 10,
    cwd := "/home/user" }

/-- A file system holding a png file, a directory and a text file, with
relative names resolved against /home/user. -/
def fsFiles : FS :=
  { pathExists := fun p => p == "photo.png" || p == "/tmp/dir" || p == "notes.txt",
    isFile := fun p => p == "photo.png" || p == "notes.txt",
    size := fun _ => 10,
    cwd := "/home/user" }

/-- A fresh client in the default configuration (config.py default_model). -/
def stDefault : ClientState :=
  { model_name := "gemini-2.5-flash-image", api_key := none,
    log_images := false, generator := none }

/-- A library oracle that always reports one produced image and some text. -/
def sdkOneImage : Sdk := fun _ => .ok ⟨some [1], some "a description"⟩

/-- A library oracle that returns normally but reports an empty image list
and no text. -/
def sdkNoImages : Sdk := fun _ => .ok ⟨some [], none⟩

/-- An environment in which only GOOGLE_API_KEY is set. -/
def envGoogleOnly : Env := fun n => if n = "GOOGLE_API_KEY" then some "env-key" else none

/-! ## Helper lemmas -/

theorem str_length_eq_zero_iff (s : String) : s.length = 0 ↔ s = "" := by
  cases s with
  | mk data =>
    constructor
    · intro h
      have : data = [] := List.length_eq_zero.mp h
      simp [this]
    · intro h
      rw [h]
      rfl

/-! ## Claim theorems -/

/-- C3: a prompt given to generate, edit, or (when present) analyze
validates successfully iff its whitespace-trimmed form has between 1 and
2000 code points; the trimmed value is the stored value, and the error names
the violated rule (empty versus too long).  The analyze validator passes
`None` through and otherwise applies the same rule. -/
theorem prompt_validation_rule (p : String) :
    (validate_prompt p = .ok (pyStrip p) ↔
      1 ≤ (pyStrip p).length ∧ (pyStrip p).length ≤ 2000) ∧
    (∀ q, validate_prompt p = .ok q → q = pyStrip p) ∧
    ((pyStrip p).length = 0 → validate_prompt p = .error "Prompt cannot be empty") ∧
    (2000 < (pyStrip p).length →
      validate_prompt p = .error "Prompt too long (max 2000 characters)") ∧
    validate_opt_prompt (some p) = Except.map some (validate_prompt p) ∧
    validate_opt_prompt none = .ok none := by
  unfold validate_prompt validate_opt_prompt
  by_cases h1 : pyStrip p = ""
  · have hl : (pyStrip p).length = 0 := (str_length_eq_zero_iff _).mpr h1
    simp [h1, hl, Except.map]
  · have hl : (pyStrip p).length ≠ 0 :=
      fun h => h1 ((str_length_eq_zero_iff _).mp h)
    by_cases h2 : (pyStrip p).length > 2000
    · simp [h1, h2, Except.map]
      omega
    · simp [h1, h2, Except.map]
      omega

/-- C3 witness: a concrete prompt with surrounding whitespace is trimmed and
accepted; a whitespace-only prompt is rejected as empty. -/
theorem prompt_validation_rule_witness :
    validate_prompt " hi " = .ok "hi" ∧
    validate_prompt "   " = .error "Prompt cannot be empty" := by
  constructor
  · have h := (prompt_validation_rule " hi ").1.mpr (by decide)
    rw [show pyStrip " hi " = "hi" from by decide] at h
    exact h
  · exact (prompt_validation_rule "   ").2.2.1 (by decide)

/-- C8: an aspect ratio validates iff it is literally one of the ten
enumerated strings, and is stored unchanged. -/
theorem aspect_ratio_exact_match (a : String) :
    ((∃ r, validate_aspect_ratio a = .ok r) ↔
      a = "1:1" ∨ a = "2:3" ∨ a = "3:2" ∨ a = "3:4" ∨ a = "4:3" ∨ a = "4:5" ∨
      a = "5:4" ∨ a = "9:16" ∨ a = "16:9" ∨ a = "21:9") ∧
    ∀ r, validate_aspect_ratio a = .ok r → r = a := by
  unfold validate_aspect_ratio
  by_cases h : a ∈ ASPECT_RATIOS
  · refine ⟨?_, ?_⟩
    · simp only [h, if_neg (not_not_intro h), not_not]
      constructor
      · intro _
        simpa [ASPECT_RATIOS] using h
      · intro _
        exact ⟨a, rfl⟩
    · intro r hr
      simp only [if_neg (not_not_intro h)] at hr
      injection hr with hr
      exact hr.symm
  · refine ⟨?_, ?_⟩
    · constructor
      · intro ⟨r, hr⟩
        simp only [if_pos h] at hr
        cases hr
      · intro hd
        exact absurd (by simpa [ASPECT_RATIOS] using hd) h
    · intro r hr
      simp only [if_pos h] at hr
      cases hr

/-- C8 witness: "16:9" is accepted verbatim, "5:5" is rejected. -/
theorem aspect_ratio_exact_match_witness :
    validate_aspect_ratio "16:9" = .ok "16:9" ∧
    validate_aspect_ratio "5:5" =
      .error ("Invalid aspect ratio. Must be one of: " ++
        String.intercalate ", " ASPECT_RATIOS) := by
  constructor
  · obtain ⟨r, hr⟩ := (aspect_ratio_exact_match "16:9").1.mpr (by decide)
    have := (aspect_ratio_exact_match "16:9").2 r hr
    rw [this] at hr
    exact hr
  · have h : "5:5" ∉ ASPECT_RATIOS := by decide
    unfold validate_aspect_ratio
    simp [h]

/-- C1 (code divergence): the filename "abc\n" — letters plus one trailing
newline — passes every check of validate_filename and is stored as
"abc\n.png", although the newline is outside the character whitelist; the
regex's `$` anchor also matches just before a trailing newline.  The claim's
rule "reject any character outside ASCII letters, digits, underscore, hyphen,
dot" therefore fails on this input. -/
theorem filename_trailing_newline_accepted :
    validate_filename (some "abc\n") = .ok (some "abc\n.png") ∧
    filename_char_ok '\n' = false ∧
    pyInStr ".." "abc\n" = false ∧
    pyInStr "/" "abc\n" = false ∧
    pyInStr "\\" "abc\n" = false := by
  decide

/-- C10: the empty string as an output filename is rejected by the
character-whitelist check (the pattern needs at least one character) even
though it contains no separator and no banned character, and the generate
handler therefore fails validation without invoking the backend. -/
theorem empty_filename_rejected :
    validate_filename (some "") =
      .error "Filename can only contain letters, numbers, underscore, hyphen, and dot" ∧
    pyInStr ".." "" = false ∧ pyInStr "/" "" = false ∧ pyInStr "\\" "" = false ∧
    (generate_image fsTmpX ⟨"/out"⟩ sdkOneImage stDefault "20240101" "a cat"
      (some "") "1:1" 1 none "preset:strict").2.2 = [] ∧
    (generate_image fsTmpX ⟨"/out"⟩ sdkOneImage stDefault "20240101" "a cat"
      (some "") "1:1" 1 none "preset:strict").1.success = false := by
  decide

theorem is_abs_path_slash_append (x : String) : is_abs_path ("/" ++ x) = true := by
  have h : ("/" : String).data = ['/'] := rfl
  simp [is_abs_path, String.data_append, h]

theorem is_abs_path_append (a b : String) (h : is_abs_path a = true) :
    is_abs_path (a ++ b) = true := by
  simp only [is_abs_path, decide_eq_true_eq] at *
  rw [String.data_append]
  cases ha : a.data with
  | nil => rw [ha] at h; simp at h
  | cons c cs =>
    rw [ha] at h
    simp at h
    simp [ha, h]

theorem path_str_abs (p : String) (h : is_abs_path p = true) :
    is_abs_path (path_str p) = true := by
  unfold path_str
  rw [if_pos h]
  exact is_abs_path_slash_append _

theorem path_absolute_abs (fs : FS) (p : String) (h : is_abs_path fs.cwd = true) :
    is_abs_path (path_absolute fs p) = true := by
  unfold path_absolute
  by_cases hp : is_abs_path p = true
  · rw [if_pos hp]
    exact path_str_abs _ hp
  · simp only [hp, if_false, Bool.false_eq_true, if_neg]
    exact path_str_abs _ (is_abs_path_append _ _ (is_abs_path_append _ _ h))

/-- C4: an image path given to edit or analyze fails with a "not found" error
when it does not exist, a "not a file" error when it exists but is not a
regular file, an "Invalid image format" error when its extension is not
case-insensitively png/jpg/jpeg/webp, and otherwise validates to the
absolute path string (absolute whenever the working directory is). -/
theorem image_path_validation_rule (fs : FS) (v : String) :
    (fs.pathExists v = false →
      validate_input_path fs v = .error ("Input image not found: " ++ v) ∧
      validate_image_path fs v = .error ("Image not found: " ++ v)) ∧
    (fs.pathExists v = true → fs.isFile v = false →
      validate_input_path fs v = .error ("Input path is not a file: " ++ v) ∧
      validate_image_path fs v = .error ("Path is not a file: " ++ v)) ∧
    (fs.pathExists v = true → fs.isFile v = true →
      pyLower (path_suffix v) ∉ IMAGE_EXTS →
      validate_input_path fs v = .error ("Invalid image format: " ++ path_suffix v) ∧
      validate_image_path fs v = .error ("Invalid image format: " ++ path_suffix v)) ∧
    (fs.pathExists v = true → fs.isFile v = true →
      pyLower (path_suffix v) ∈ IMAGE_EXTS →
      validate_input_path fs v = .ok (path_absolute fs v) ∧
      validate_image_path fs v = .ok (path_absolute fs v) ∧
      (is_abs_path fs.cwd = true → is_abs_path (path_absolute fs v) = true)) := by
  refine ⟨?_, ?_, ?_, ?_⟩
  · intro h
    constructor <;> simp [validate_input_path, validate_image_path, h]
  · intro h1 h2
    constructor <;> simp [validate_input_path, validate_image_path, h1, h2]
  · intro h1 h2 h3
    constructor <;> simp [validate_input_path, validate_image_path, h1, h2, h3]
  · intro h1 h2 h3
    refine ⟨?_, ?_, fun hc => path_absolute_abs fs v hc⟩ <;>
      simp [validate_input_path, validate_image_path, h1, h2, h3]

/-- C4 witness: concrete paths against the fsFiles file system — a relative
png file resolves to an absolute path, a missing file, a directory and a
text file each fail with the respective error. -/
theorem image_path_validation_rule_witness :
    validate_input_path fsFiles "photo.png" = .ok "/home/user/photo.png" ∧
    validate_image_path fsFiles "missing.png" = .error "Image not found: missing.png" ∧
    validate_input_path fsFiles "/tmp/dir" = .error "Input path is not a file: /tmp/dir" ∧
    validate_input_path fsFiles "notes.txt" = .error "Invalid image format: .txt" := by
  refine ⟨?_, ?_, ?_, ?_⟩
  · have h := ((image_path_validation_rule fsFiles "photo.png").2.2.2
      (by decide) (by decide) (by decide)).1
    rw [h]
    decide
  · have h := ((image_path_validation_rule fsFiles "missing.png").1 (by decide)).2
    rw [h]
    decide
  · have h := ((image_path_validation_rule fsFiles "/tmp/dir").2.1
      (by decide) (by decide)).1
    rw [h]
    decide
  · have h := ((image_path_validation_rule fsFiles "notes.txt").2.2.1
      (by decide) (by decide) (by decide)).1
    rw [h]
    decide

/-- C5: whenever a tool call's input fails validation, the handler returns
{success: false, message: "Invalid input: <details>"} with the client state
untouched and no invocation passed to the backend. -/
theorem invalid_input_short_circuit (fs : FS) (cfg : StorageCfg) (sdk : Sdk)
    (st : ClientState) (timestamp prompt input_image_path image_path : String)
    (output_filename : Option String) (aspect_ratio : String) (temperature : ℚ)
    (model : Option String) (safety_setting : String) :
    (∀ errs, validate_generate_input prompt output_filename aspect_ratio
        temperature model safety_setting = .error errs →
      generate_image fs cfg sdk st timestamp prompt output_filename
        aspect_ratio temperature model safety_setting =
        ({ success := false,
           message := some ("Invalid input: " ++ render_errors errs) }, st, [])) ∧
    (∀ errs, validate_edit_input fs prompt input_image_path output_filename
        temperature = .error errs →
      edit_image fs cfg sdk st timestamp prompt input_image_path
        output_filename temperature =
        ({ success := false,
           message := some ("Invalid input: " ++ render_errors errs) }, st, [])) ∧
    (∀ errs, validate_analyze_input fs image_path none = .error errs →
      analyze_image fs sdk st image_path =
        ({ success := false,
           message := some ("Invalid input: " ++ render_errors errs) }, st, [])) := by
  refine ⟨?_, ?_, ?_⟩ <;> intro errs h <;>
    simp [generate_image, edit_image, analyze_image, h]

/-- C5 witness: the spec's concrete scenario — edit with an empty prompt and
input_image_path "/tmp/x.png" (an existing png file) yields exactly
"Invalid input: Prompt cannot be empty" and an empty backend trace. -/
theorem invalid_input_short_circuit_witness :
    edit_image fsTmpX ⟨"/out"⟩ sdkOneImage stDefault "20240101" "" "/tmp/x.png"
      none 1 =
      ({ success := false,
         message := some "Invalid input: Prompt cannot be empty" },
       stDefault, []) := by
  have h := (invalid_input_short_circuit fsTmpX ⟨"/out"⟩ sdkOneImage stDefault
    "20240101" "" "/tmp/x.png" "" none "1:1" 1 none "preset:strict").2.1
    ["Prompt cannot be empty"] (by decide)
  rw [h]
  decide

/-- C6: the loaded api_key is the first non-empty value among GOOGLE_API_KEY,
GOOGLE_GENERATIVE_AI_API_KEY and GEMINI_API_KEY, overriding any file-supplied
key; with no non-empty environment value the file key stands. -/
theorem api_key_env_precedence (file_key : Option String) (env : Env) :
    (∀ k, first_non_empty [env "GOOGLE_API_KEY",
        env "GOOGLE_GENERATIVE_AI_API_KEY", env "GEMINI_API_KEY"] = some k →
      loaded_api_key file_key env = some k) ∧
    (first_non_empty [env "GOOGLE_API_KEY", env "GOOGLE_GENERATIVE_AI_API_KEY",
        env "GEMINI_API_KEY"] = none →
      loaded_api_key file_key env = file_key) := by
  rcases hA : env "GOOGLE_API_KEY" with _ | a <;>
    rcases hB : env "GOOGLE_GENERATIVE_AI_API_KEY" with _ | b <;>
      rcases hC : env "GEMINI_API_KEY" with _ | c <;>
        simp [loaded_api_key, env_api_key, py_or_opt, first_non_empty, hA, hB, hC] <;>
        (try split_ifs) <;> simp_all [first_non_empty]

/-- C6 witness: file-supplied "file-key" is overridden by
GOOGLE_API_KEY="env-key". -/
theorem api_key_env_precedence_witness :
    loaded_api_key (some "file-key") envGoogleOnly = some "env-key" :=
  (api_key_env_precedence (some "file-key") envGoogleOnly).1 "env-key" (by decide)

/-- C7: when the library call behind the adapter's generate returns without
exception, an empty or absent image list yields success=false with error
exactly "No images generated", and a non-empty image list yields success=true
with an image_paths list containing the requested output path. -/
theorem generate_no_images_policy (sdk : Sdk) (st : ClientState)
    (prompt output_path : String) (aspect_ratio : Option String)
    (temperature : Option ℚ) (model safety_setting : Option String)
    (r : SdkResult)
    (hsdk : sdk (generate_invocation st prompt output_path aspect_ratio
      temperature model).1 = .ok r) :
    (r.images = none ∨ r.images = some [] →
      (client_generate sdk st prompt output_path aspect_ratio temperature model
        safety_setting).1 =
        { success := false, output := "", error := some "No images generated" }) ∧
    (∀ l, r.images = some l → l ≠ [] →
      (client_generate sdk st prompt output_path aspect_ratio temperature model
        safety_setting).1.success = true ∧
      ∃ paths, (client_generate sdk st prompt output_path aspect_ratio
        temperature model safety_setting).1.image_paths = some paths ∧
        output_path ∈ paths) := by
  constructor
  · intro h
    rcases h with h | h <;> simp [client_generate, hsdk, truthy_list, h]
  · intro l hl hne
    refine ⟨?_, [output_path], ?_, ?_⟩ <;>
      simp [client_generate, hsdk, truthy_list, hl, hne]

/-- C7 witness: a backend run reporting an empty image list is surfaced as
the fixed failure; one reporting an image succeeds and lists the requested
output path. -/
theorem generate_no_images_policy_witness :
    (client_generate sdkNoImages stDefault "a cat" "/out/a.png" (some "1:1")
      (some 1) none (some "preset:strict")).1 =
      { success := false, output := "", error := some "No images generated" } ∧
    (client_generate sdkOneImage stDefault "a cat" "/out/a.png" (some "1:1")
      (some 1) none (some "preset:strict")).1.success = true := by
  constructor
  · exact (generate_no_images_policy sdkNoImages stDefault "a cat" "/out/a.png"
      (some "1:1") (some 1) none (some "preset:strict") ⟨some [], none⟩ rfl).1
      (Or.inr rfl)
  · exact ((generate_no_images_policy sdkOneImage stDefault "a cat" "/out/a.png"
      (some "1:1") (some 1) none (some "preset:strict") ⟨some [1], some "a description"⟩
      rfl).2 [1] rfl (by decide)).1

/-- C9: a per-call model override handed to the adapter's generate overwrites
the shared generator's model_name and is never reverted: the state after the
call carries the override, a later generate without an override and a later
edit both pass the overridden model to the library (and leave the state
unchanged, so this persists forever), while the client's own model_name
attribute keeps the configured default and an edit's result data reports that
original default. -/
theorem model_override_persists (st : ClientState)
    (m prompt output_path : String) (aspect_ratio : Option String)
    (temperature : Option ℚ) (st1 : ClientState) (hm : m ≠ "")
    (h1 : st1 = (generate_invocation st prompt output_path aspect_ratio
      temperature (some m)).2) :
    ((generate_invocation st prompt output_path aspect_ratio temperature
      (some m)).1.model_name = m) ∧
    (∃ g, st1.generator = some g ∧ g.model_name = m) ∧
    st1.model_name = st.model_name ∧
    (∀ p2 o2 a2 t2, (generate_invocation st1 p2 o2 a2 t2 none).1.model_name = m) ∧
    (∀ p2 o2 a2 t2, (generate_invocation st1 p2 o2 a2 t2 none).2 = st1) ∧
    (∀ p3 i3 o3 t3, (edit_invocation st1 p3 i3 o3 t3).1.model_name = m) ∧
    (∀ p3 i3 o3 t3, (edit_invocation st1 p3 i3 o3 t3).2 = st1) ∧
    (∀ sdk p3 i3 o3 t3 r, sdk (edit_invocation st1 p3 i3 o3 t3).1 = .ok r →
      truthy_list r.images = true →
      ∃ d, (client_edit sdk st1 p3 i3 o3 t3).1.data = some d ∧
        d.model = some st.model_name) := by
  have hm' : (m != "") = true := by simpa using hm
  subst h1
  refine ⟨?_, ?_, ?_, ?_, ?_, ?_, ?_, ?_⟩
  · rcases hg : st.generator with _ | g <;>
      simp [generate_invocation, get_generator, hg, hm']
  · rcases hg : st.generator with _ | g <;>
      simp [generate_invocation, get_generator, hg, hm']
  · rcases hg : st.generator with _ | g <;>
      simp [generate_invocation, get_generator, hg, hm']
  · intro p2 o2 a2 t2
    rcases hg : st.generator with _ | g <;>
      simp [generate_invocation, get_generator, hg, hm']
  · intro p2 o2 a2 t2
    rcases hg : st.generator with _ | g <;>
      simp [generate_invocation, get_generator, hg, hm']
  · intro p3 i3 o3 t3
    rcases hg : st.generator with _ | g <;>
      simp [generate_invocation, get_generator, edit_invocation, hg, hm']
  · intro p3 i3 o3 t3
    rcases hg : st.generator with _ | g <;>
      simp [generate_invocation, get_generator, edit_invocation, hg, hm']
  · intro sdk p3 i3 o3 t3 r hsdk himg
    rcases hg : st.generator with _ | g <;>
      · simp only [client_edit]
        rw [hsdk]
        simp only [himg, if_true]
        refine ⟨_, rfl, ?_⟩
        simp [generate_invocation, get_generator, hg]

/-- C9 witness: after one generate with the override
"gemini-3-pro-image-preview" on a fresh default client, a subsequent edit
passes the overridden model to the library while its result data still
reports the default "gemini-2.5-flash-image". -/
theorem model_override_persists_witness :
    (edit_invocation
      (generate_invocation stDefault "a cat" "/out/a.png" (some "1:1") none
        (some "gemini-3-pro-image-preview")).2
      "add a hat" "/tmp/x.png" "/out/b.png" none).1.model_name =
      "gemini-3-pro-image-preview" ∧
    ∃ d, (client_edit sdkOneImage
      (generate_invocation stDefault "a cat" "/out/a.png" (some "1:1") none
        (some "gemini-3-pro-image-preview")).2
      "add a hat" "/tmp/x.png" "/out/b.png" none).1.data = some d ∧
      d.model = some "gemini-2.5-flash-image" := by
  have h := model_override_persists stDefault "gemini-3-pro-image-preview"
    "a cat" "/out/a.png" (some "1:1") none _ (by decide) rfl
  exact ⟨h.2.2.2.2.2.1 "add a hat" "/tmp/x.png" "/out/b.png" none,
    h.2.2.2.2.2.2.2 sdkOneImage "add a hat" "/tmp/x.png" "/out/b.png" none
      ⟨some [1], some "a description"⟩ rfl rfl⟩

/-- C2 (code divergence): server.analyze_image has no prompt parameter — the
handler builds AnalyzeImageInput without a prompt and calls the client
without one — so every invocation the analyze tool passes to the backend
carries the fixed default analysis prompt; a caller-supplied analysis prompt
can never reach the backend through this tool. -/
theorem analyze_tool_prompt_always_default (fs : FS) (sdk : Sdk)
    (st : ClientState) (image_path : String) :
    ∀ inv ∈ (analyze_image fs sdk st image_path).2.2,
      SdkInvocation.prompt inv = DEFAULT_ANALYSIS_PROMPT := by
  intro inv hinv
  unfold analyze_image at hinv
  rcases h : validate_analyze_input fs image_path none with errs | inputs <;>
    rw [h] at hinv
  · simp at hinv
  · rcases hs : sdk (analyze_invocation st inputs.image_path none).1 with e | r <;>
      simp [client_analyze, hs] at hinv <;>
      (try split at hinv) <;>
      simp_all [analyze_invocation, py_or_str]

/-- C2 witness: the one invocation a concrete successful analyze run passes
to the library carries the default analysis prompt. -/
theorem analyze_tool_prompt_always_default_witness :
    SdkInvocation.prompt
      ⟨"gemini-2.5-flash-image", DEFAULT_ANALYSIS_PROMPT, ["/tmp/x.png"], [],
        none, none, true⟩ = DEFAULT_ANALYSIS_PROMPT := by
  exact analyze_tool_prompt_always_default fsTmpX sdkOneImage stDefault
    "/tmp/x.png" _ (by decide)
